import Mathlib

/-
Verification of the idbutils database layer (src/idbutils): the key-value
version ledger (key_value.py), the attribute/version checks
(db_attributes.py), table initialization (db.py) and the DbObject query
helpers (db_object.py), shallowly embedded as executable Lean functions.
-/

set_option maxRecDepth 4096

/-! ### A model of Python's `str` and `int` builtins on integers

`KeyValueObject.set`/`set_if_unset` store `str(value)` and `get_int` reads it
back through `int(...)`.  Both builtins are external to the repository; they
are modelled here by an executable decimal printer (sign plus decimal digits,
no leading zeros, exactly CPython's `str` on `int`) and a parser accepting an
optional minus sign followed by decimal digits (the sublanguage of `int(...)`
that `str` produces; on any other input the parser fails, which models
`int(...)` raising `ValueError`). -/

/-- The decimal digit character for `d < 10` (models the digits of `str(n)`). -/
def digitToChar (d : Nat) : Char := Char.ofNat (48 + d)

/-- The value of a decimal digit character, or `none` (models `int(...)`
rejecting a non-digit character). -/
def charToDigit? (c : Char) : Option Nat :=
  if 48 ≤ c.toNat && c.toNat ≤ 57 then some (c.toNat - 48) else none

/-- Value of a digit string given least-significant digit first. -/
def digitsVal? : List Char → Option Nat
  | [] => some 0
  | c :: cs =>
    match charToDigit? c, digitsVal? cs with
    | some d, some n => some (d + 10 * n)
    | _, _ => none

/-- Parse a non-empty list of decimal digit characters, most significant
first (the digit part of Python's `int(...)`). -/
def parseNatChars? (cs : List Char) : Option Nat :=
  if cs.isEmpty then none else digitsVal? cs.reverse

/-- The decimal digit characters of `n`, most significant first
(models `str(n)` for `n ≥ 0`). -/
def pyStrNatChars (n : Nat) : List Char :=
  if n = 0 then ['0'] else ((Nat.digits 10 n).map digitToChar).reverse

/-- Models Python's `str(i)` for an `int` `i`. -/
def pyStr (i : Int) : String :=
  if i < 0 then ⟨'-' :: pyStrNatChars i.natAbs⟩ else ⟨pyStrNatChars i.natAbs⟩

/-- Character-list form of `pyInt?`. -/
def pyIntChars? : List Char → Option Int
  | [] => none
  | c :: cs =>
    if c = '-' then (parseNatChars? cs).map (fun n => -(Int.ofNat n))
    else (parseNatChars? (c :: cs)).map (fun n => Int.ofNat n)

/-- Models Python's `int(s)`: optional minus sign followed by decimal digits;
`none` models `int(...)` raising `ValueError`. -/
def pyInt? (s : String) : Option Int :=
  pyIntChars? s.data

theorem charToDigit?_digitToChar {d : Nat} (h : d < 10) :
    charToDigit? (digitToChar d) = some d := by
  interval_cases d <;> rfl

theorem digitToChar_ne_minus {d : Nat} (h : d < 10) : digitToChar d ≠ '-' := by
  interval_cases d <;> decide

theorem digitsVal?_map_digitToChar (ds : List Nat) (h : ∀ d ∈ ds, d < 10) :
    digitsVal? (ds.map digitToChar) = some (Nat.ofDigits 10 ds) := by
  induction ds with
  | nil => simp [digitsVal?, Nat.ofDigits_nil]
  | cons d ds ih =>
    have hd : d < 10 := h d (List.mem_cons_self d ds)
    have hds : ∀ x ∈ ds, x < 10 := fun x hx => h x (List.mem_cons_of_mem d hx)
    simp only [List.map_cons, digitsVal?, charToDigit?_digitToChar hd, ih hds,
      Nat.ofDigits_cons]

theorem parseNatChars?_pyStrNatChars (n : Nat) :
    parseNatChars? (pyStrNatChars n) = some n := by
  by_cases h0 : n = 0
  · subst h0; rfl
  · have hne : Nat.digits 10 n ≠ [] := Nat.digits_ne_nil_iff_ne_zero.mpr h0
    have hlt : ∀ d ∈ Nat.digits 10 n, d < 10 :=
      fun d hd => Nat.digits_lt_base (by norm_num) hd
    unfold pyStrNatChars parseNatChars?
    rw [if_neg h0]
    have hne2 : ((Nat.digits 10 n).map digitToChar).reverse ≠ [] := by
      simp [hne]
    rw [if_neg (by simpa [List.isEmpty_iff] using hne2)]
    rw [List.reverse_reverse, digitsVal?_map_digitToChar _ hlt,
      Nat.ofDigits_digits]

theorem pyStrNatChars_ne_nil (n : Nat) : pyStrNatChars n ≠ [] := by
  unfold pyStrNatChars
  by_cases h0 : n = 0
  · simp [h0]
  · have hne : Nat.digits 10 n ≠ [] := Nat.digits_ne_nil_iff_ne_zero.mpr h0
    simp [h0, hne]

theorem pyStrNatChars_head_ne_minus (n : Nat) (c : Char) (cs : List Char)
    (h : pyStrNatChars n = c :: cs) : c ≠ '-' := by
  have hc : c ∈ pyStrNatChars n := by rw [h]; exact List.mem_cons_self c cs
  unfold pyStrNatChars at hc
  by_cases h0 : n = 0
  · rw [if_pos h0] at hc
    simp only [List.mem_singleton] at hc
    subst hc; decide
  · rw [if_neg h0] at hc
    rw [List.mem_reverse, List.mem_map] at hc
    obtain ⟨d, hd, rfl⟩ := hc
    exact digitToChar_ne_minus (Nat.digits_lt_base (by norm_num) hd)

/-- Round trip: `int(str(i)) = i`, the fact the version ledger relies on. -/
theorem pyInt?_pyStr (i : Int) : pyInt? (pyStr i) = some i := by
  by_cases hneg : i < 0
  · have hstr : pyStr i = ⟨'-' :: pyStrNatChars i.natAbs⟩ := by
      unfold pyStr; rw [if_pos hneg]
    rw [hstr]
    show pyIntChars? ('-' :: pyStrNatChars i.natAbs) = some i
    rw [pyIntChars?, if_pos rfl, parseNatChars?_pyStrNatChars]
    simp only [Option.map_some', Int.ofNat_eq_natCast]
    congr 1
    omega
  · have hstr : pyStr i = ⟨pyStrNatChars i.natAbs⟩ := by
      unfold pyStr; rw [if_neg hneg]
    rw [hstr]
    rcases hcs : pyStrNatChars i.natAbs with _ | ⟨c, cs⟩
    · exact absurd hcs (pyStrNatChars_ne_nil _)
    · have hc : c ≠ '-' := pyStrNatChars_head_ne_minus _ _ _ hcs
      show pyIntChars? (c :: cs) = some i
      rw [pyIntChars?, if_neg hc, ← hcs, parseNatChars?_pyStrNatChars]
      simp only [Option.map_some', Int.ofNat_eq_natCast]
      congr 1
      omega

/-! ### Generic list helpers -/

/-- Replace the first element satisfying `p` using `f` (models mutating the
single ORM instance returned by a lookup). -/
def replaceFirstP (p : α → Bool) (f : α → α) : List α → List α
  | [] => []
  | a :: l => if p a then f a :: l else a :: replaceFirstP p f l

theorem find?_append_none (p : α → Bool) (l l' : List α)
    (h : l.find? p = none) : (l ++ l').find? p = l'.find? p := by
  induction l with
  | nil => rfl
  | cons a t ih =>
    rcases hpa : p a with _ | _
    · rw [List.find?_cons_of_neg _ (by simp [hpa])] at h
      rw [List.cons_append, List.find?_cons_of_neg _ (by simp [hpa])]
      exact ih h
    · rw [List.find?_cons_of_pos _ hpa] at h
      exact absurd h (by simp)

theorem find?_append_some (p : α → Bool) (l l' : List α) (a : α)
    (h : l.find? p = some a) : (l ++ l').find? p = some a := by
  induction l with
  | nil => simp [List.find?] at h
  | cons b t ih =>
    rcases hpb : p b with _ | _
    · rw [List.find?_cons_of_neg _ (by simp [hpb])] at h
      rw [List.cons_append, List.find?_cons_of_neg _ (by simp [hpb])]
      exact ih h
    · rw [List.find?_cons_of_pos _ hpb] at h
      rw [List.cons_append, List.find?_cons_of_pos _ hpb]
      exact h

theorem find?_replaceFirstP (p : α → Bool) (f : α → α) (l : List α)
    (hf : ∀ a, p a = true → p (f a) = true) :
    (replaceFirstP p f l).find? p = (l.find? p).map f := by
  induction l with
  | nil => rfl
  | cons a t ih =>
    rcases hpa : p a with _ | _
    · rw [replaceFirstP, if_neg (by simp [hpa]), List.find?_cons_of_neg _ (by simp [hpa]),
        List.find?_cons_of_neg _ (by simp [hpa]), ih]
    · rw [replaceFirstP, if_pos hpa, List.find?_cons_of_pos _ (hf a hpa),
        List.find?_cons_of_pos _ hpa]
      rfl

theorem filter_swap (p q : α → Bool) (l : List α) :
    (l.filter q).filter p = (l.filter p).filter q := by
  induction l with
  | nil => rfl
  | cons a t ih =>
    rcases hq : q a with _ | _ <;> rcases hp : p a with _ | _ <;>
      simp [List.filter_cons, hq, hp, ih]

/-! ### The key-value version ledger (`src/idbutils/key_value.py`)

`KeyValueObject` rows have columns `timestamp`, `key` (primary key) and
`value`.  The table is modelled as a list of records; `s_get` is the
primary-key lookup `session.query(cls).get(key)` (first record with the
matching key — the engine keeps keys unique, the model does not assume it).
Timestamps are modelled as integers, `datetime` being totally ordered. -/

structure KVRecord where
  timestamp : Int
  key : String
  value : Option String
deriving Repr, DecidableEq

/-- The `KeyValueObject` table contents. -/
abbrev KVStore := List KVRecord

/-- `KeyValueObject.s_get`: primary-key lookup (default `None`). -/
def kvGet (store : KVStore) (key : String) : Option KVRecord :=
  store.find? (fun r => decide (r.key = key))

/-- `DbObject.s_insert_or_update` specialised to `KeyValueObject` as invoked
by `set`/`s_set_newer`: the values dict is
`{'timestamp': ts, 'key': key, 'value': str(value)}`.  When the key exists,
`update_from_dict` (with `ignore_none=True, ignore_zero=False`) writes all
three columns — none of the supplied values is `None` — so the record found
is replaced wholesale; otherwise `cls(**values_dict)` is added. -/
def kvInsertOrUpdate (store : KVStore) (ts : Int) (key value : String) : KVStore :=
  match kvGet store key with
  | some _ =>
      replaceFirstP (fun r => decide (r.key = key)) (fun _ => ⟨ts, key, some value⟩) store
  | none => store ++ [⟨ts, key, some value⟩]

/-- `KeyValueObject.s_set_newer`: update only when the key is absent or the
stored timestamp is strictly older than the supplied one.  `value` is the
already-stringified `str(value)`. -/
def s_set_newer (store : KVStore) (key value : String) (ts : Int) : KVStore :=
  match kvGet store key with
  | none => kvInsertOrUpdate store ts key value
  | some item =>
      if item.timestamp < ts then kvInsertOrUpdate store ts key value else store

/-- `KeyValueObject.set_if_unset` via `DbObject.s_find_or_create`: add the
record only when the key is absent.  `value` is the already-stringified
`str(value)`. -/
def set_if_unset (store : KVStore) (key value : String) (ts : Int) : KVStore :=
  match kvGet store key with
  | some _ => store
  | none => store ++ [⟨ts, key, some value⟩]

/-- `KeyValueObject.get_type`: look the key up; convert the stored value with
`type_func`, where `typeFunc s = none` models the conversion raising (the
exception is caught and logged, then control falls through to
`return default`); a stored `NULL` value returns `None`; an absent key
returns the caller-supplied default.  The function is total: no exception
escapes to the caller. -/
def get_type {α : Type} (store : KVStore) (typeFunc : String → Option α)
    (key : String) (default : Option α) : Option α :=
  match kvGet store key with
  | some instance' =>
      match instance'.value with
      | some v =>
        match typeFunc v with
        | some r => some r
        | none => default
      | none => none
  | none => default

/-- `KeyValueObject.get_int`. -/
def get_int (store : KVStore) (key : String) (default : Option Int) : Option Int :=
  get_type store pyInt? key default

/-- `KeyValueObject.get_string` (`str` on a string never fails). -/
def get_string (store : KVStore) (key : String) (default : Option String) :
    Option String :=
  get_type store (fun s => some s) key default

/-! ### Version checks (`src/idbutils/db_attributes.py`) and table
initialization (`src/idbutils/db.py`) -/

/-- The data carried by the `RuntimeError` raised on a version mismatch:
`"DB: %s table %s version mismatch. ... (%s vs %s)" % (db_name, tablename,
db_name, table_version, declared)` reports the table name and both version
numbers. -/
structure VersionError where
  db_name : String
  table_name : String
  stored : Option Int
  declared : Int
deriving Repr, DecidableEq

/-- The per-table data the version machinery reads: `__tablename__`,
`table_version`, the optional `view_version` (`hasattr` modelled by
`Option`), and `_col_units`. -/
structure TableMeta where
  tablename : String
  table_version : Int
  view_version : Option Int
  col_units : List (String × String)
deriving Repr, DecidableEq

/-- `DbAttributesObject.__version_check_key`: `set_if_unset` the declared
version (stored as `str(version_number)`), then read it back via `get_int`. -/
def version_check_key (store : KVStore) (versionKey : String)
    (versionNumber : Int) (ts : Int) : KVStore × Option Int :=
  let store' := set_if_unset store versionKey (pyStr versionNumber) ts
  (store', get_int store' versionKey none)

/-- `DbAttributesObject.table_version_check`: raise a `VersionError` when the
read-back table version differs from the code-declared one. -/
def table_version_check (dbName : String) (store : KVStore) (t : TableMeta)
    (ts : Int) : Except VersionError KVStore :=
  let res := version_check_key store (t.tablename ++ ".version") t.table_version ts
  if res.2 = some t.table_version then .ok res.1
  else .error ⟨dbName, t.tablename, res.2, t.table_version⟩

/-- `DbAttributesObject.view_version_check`: when the table declares a
`view_version`, bootstrap/read the view version key and report equality;
tables without one pass trivially.  Never raises. -/
def view_version_check (store : KVStore) (t : TableMeta) (ts : Int) :
    KVStore × Bool :=
  match t.view_version with
  | some vv =>
      let res := version_check_key store (t.tablename ++ ".view_version") vv ts
      (res.1, decide (res.2 = some vv))
  | none => (store, true)

/-- `DbAttributesObject.update_table_units`: `set_if_unset` each column's
units under `f'{tablename}.{colname}.units'`. -/
def update_table_units (store : KVStore) (t : TableMeta) (ts : Int) : KVStore :=
  t.col_units.foldl
    (fun st cu => set_if_unset st (t.tablename ++ "." ++ cu.1 ++ ".units") cu.2 ts)
    store

/-- Database-level state touched by `DB.init_table`: the `_attributes`
key-value store and the set of existing view names. -/
structure DbState where
  store : KVStore
  views : List String
deriving Repr, DecidableEq

/-- `DbObject._get_default_view_name`. -/
def get_default_view_name (tablename : String) : String := tablename ++ "_view"

/-- `DbObject.delete_view` with the default view name: the engine executes
`DROP VIEW IF EXISTS <name>`, which removes the view when present and is a
no-op otherwise (never an error). -/
def delete_view (views : List String) (viewName : String) : List String :=
  views.filter (fun v => decide (v ≠ viewName))

/-- `DB.init_table`: `table.setup(db)` (computes per-table metadata; the
tables modelled here install no `create_view` hook), then
`table_version_check` (fatal on mismatch), then `update_table_units`, and
finally `view_version_check`, dropping the table's default view on a view
version mismatch instead of failing. -/
def init_table (dbName : String) (st : DbState) (t : TableMeta) (ts : Int) :
    Except VersionError DbState :=
  match table_version_check dbName st.store t ts with
  | .error e => .error e
  | .ok store1 =>
      let store2 := update_table_units store1 t ts
      let res := view_version_check store2 t ts
      if res.2 then .ok ⟨res.1, st.views⟩
      else .ok ⟨res.1, delete_view st.views (get_default_view_name t.tablename)⟩

/-! ### Table descriptor setup (`DbObject.__setup_table_vars`) -/

/-- SQLAlchemy column types appearing in the layer. -/
inductive ColType where
  | SString
  | SInteger
  | SFloat
  | SDateTime
  | SDate
  | STime
deriving Repr, DecidableEq

/-- `isinstance(col.type, (DateTime, Date, Time))`. -/
def isTemporal : ColType → Bool
  | .SDateTime => true
  | .SDate => true
  | .STime => true
  | _ => false

/-- One declared column: name, type, and whether it is part of the primary
key (set directly or through a `PrimaryKeyConstraint`). -/
structure ColDef where
  name : String
  type : ColType
  primary_key : Bool
deriving Repr, DecidableEq

/-- The per-table variables `__setup_table_vars` computes.  `get_col_name`
and `time_col_name` are `Option`s: the source leaves `get_col_name` unset
when the table has no primary-key column, and creates the `time_col`
synonym only when a temporal column was designated. -/
structure TableVars where
  col_names : List String
  primary_key_cols : List String
  get_col_name : Option String
  time_col_name : Option String
deriving Repr, DecidableEq

/-- One iteration of the first loop of `__setup_table_vars` (over
`cls.__table__._columns`): record primary-key columns, let `get_col_name` be
the last primary-key column seen, and let `time_col_name` be the last
temporal primary-key column seen. -/
def pkScanStep (vars : TableVars) (col : ColDef) : TableVars :=
  if col.primary_key then
    { vars with
      primary_key_cols := vars.primary_key_cols ++ [col.name]
      get_col_name := some col.name
      time_col_name := if isTemporal col.type then some col.name else vars.time_col_name }
  else vars

/-- `DbObject.__setup_table_vars`: first loop over all columns (primary-key
bookkeeping, temporal primary-key columns win), then — only if no temporal
primary-key column was found — a second loop designating the first temporal
column in declaration order (`break` on the first hit). -/
def setup_table_vars (cols : List ColDef) : TableVars :=
  let init : TableVars :=
    { col_names := cols.map ColDef.name
      primary_key_cols := []
      get_col_name := none
      time_col_name := none }
  let afterPk := cols.foldl pkScanStep init
  if afterPk.time_col_name = none then
    { afterPk with
      time_col_name := (cols.find? (fun c => isTemporal c.type)).map ColDef.name }
  else afterPk

theorem pkScan_time_col (cols : List ColDef) (acc : TableVars) :
    (cols.foldl pkScanStep acc).time_col_name =
      match cols.reverse.find? (fun c => c.primary_key && isTemporal c.type) with
      | some c => some c.name
      | none => acc.time_col_name := by
  induction cols generalizing acc with
  | nil => rfl
  | cons c cs ih =>
    rw [List.foldl_cons, ih (pkScanStep acc c), List.reverse_cons]
    rcases h : cs.reverse.find? (fun c => c.primary_key && isTemporal c.type) with _ | c'
    · rw [h, find?_append_none _ _ _ h]
      rcases hpk : c.primary_key with _ | _
      · rw [List.find?_cons_of_neg _ (by simp [hpk])]
        simp [pkScanStep, hpk]
      · rcases htm : isTemporal c.type with _ | _
        · rw [List.find?_cons_of_neg _ (by simp [hpk, htm])]
          simp [pkScanStep, hpk, htm]
        · rw [List.find?_cons_of_pos _ (by simp [hpk, htm])]
          simp [pkScanStep, hpk, htm]
    · rw [h, find?_append_some _ _ _ _ h]

/-- Declarative characterization of the designated time column: the last
temporal primary-key column if any, else the first temporal column in
declaration order. -/
theorem setup_time_col (cols : List ColDef) :
    (setup_table_vars cols).time_col_name =
      match cols.reverse.find? (fun c => c.primary_key && isTemporal c.type) with
      | some c => some c.name
      | none => (cols.find? (fun c => isTemporal c.type)).map ColDef.name := by
  unfold setup_table_vars
  rcases h : cols.reverse.find? (fun c => c.primary_key && isTemporal c.type) with _ | c
  · simp [pkScan_time_col, h]
  · simp [pkScan_time_col, h]

/-! ### Generic table rows and the keyed helpers (`src/idbutils/db_object.py`)

A row is modelled as an association list from column names to SQL values, a
values dict the same way.  Failures raised inside the Python helpers are
explicit: `attributeError` models an `AttributeError` for a missing class
attribute, `keyError` a dict `KeyError`, and `invalidRequest` SQLAlchemy's
`InvalidRequestError` ("Incorrect number of values in identifier to
formulate primary key for query.get()") when `Query.get` receives a scalar
identifier for a composite primary key.  `noTimeColumnError` is NOT produced
by the code: it is modelled from the spec's words — the "clear 'no time
column' error" the spec's scenario demands — so that the spec's claim can be
compared with what the code actually raises. -/

inductive PyError where
  | attributeError (attr : String)
  | keyError (key : String)
  | invalidRequest
  | noTimeColumnError
deriving Repr, DecidableEq

/-- A SQL value: `NULL`, an integer, a string, or a timestamp. -/
inductive Value where
  | vNull
  | vInt (i : Int)
  | vStr (s : String)
  | vTs (t : Nat)
deriving Repr, DecidableEq

/-- Rows and values dicts: column name to value, in declaration order. -/
abbrev Row := List (String × Value)

/-- Attribute/dict read. -/
def rowGet (row : Row) (k : String) : Option Value :=
  (row.find? (fun p => decide (p.1 = k))).map Prod.snd

/-- `set_attribute(self, key, value)`: overwrite the first binding of the
column, or append it. -/
def rowSet : Row → String → Value → Row
  | [], k, v => [(k, v)]
  | kv :: rest, k, v =>
      if kv.1 = k then (k, v) :: rest else kv :: rowSet rest k v

/-- A bound table: its computed descriptor plus its rows. -/
structure Table where
  vars : TableVars
  rows : List Row
deriving Repr, DecidableEq

/-- `DbObject.update_from_dict`: write each dict entry whose key is a column
name, subject to `ignore_none`/`ignore_zero` (`value != 0` compares the SQL
value against the integer `0`). -/
def update_from_dict (colNames : List String) (row : Row) (vd : Row)
    (ignoreNone ignoreZero : Bool) : Row :=
  vd.foldl
    (fun r kv =>
      if ((!ignoreNone || !(kv.2 = Value.vNull)) &&
          (!ignoreZero || !(kv.2 = Value.vInt 0)) &&
          colNames.contains kv.1)
      then rowSet r kv.1 kv.2 else r)
    row

/-- `DbObject.s_get`: `session.query(cls).get(instance_id)`.  With a single
primary-key column this is a lookup by that column; with a composite primary
key, passing the scalar `instance_id` makes SQLAlchemy raise
`InvalidRequestError`. -/
def tbl_s_get (t : Table) (instanceId : Value) : Except PyError (Option Row) :=
  match t.vars.primary_key_cols with
  | [pk] => .ok (t.rows.find? (fun r => decide (rowGet r pk = some instanceId)))
  | _ => .error .invalidRequest

/-- `DbObject.s_get_from_dict`: `cls.s_get(session, values_dict[cls.get_col_name])`.
`get_col_name` is the last primary-key column of the scan — a single column
even when the primary key is composite. -/
def s_get_from_dict (t : Table) (vd : Row) : Except PyError (Option Row) :=
  match t.vars.get_col_name with
  | none => .error (.attributeError "get_col_name")
  | some g =>
      match rowGet vd g with
      | none => .error (.keyError g)
      | some v => tbl_s_get t v

/-- `DbObject.s_insert_or_update`: look the record up through
`s_get_from_dict`; update the found instance via `update_from_dict`, or add
`cls(**values_dict)`. -/
def s_insert_or_update (t : Table) (vd : Row) (ignoreNone ignoreZero : Bool) :
    Except PyError Table :=
  match s_get_from_dict t vd with
  | .error e => .error e
  | .ok none => .ok { t with rows := t.rows ++ [vd] }
  | .ok (some _) =>
      match t.vars.get_col_name, t.vars.primary_key_cols with
      | some g, [pk] =>
          match rowGet vd g with
          | some v =>
              .ok { t with
                    rows := replaceFirstP
                      (fun r => decide (rowGet r pk = some v))
                      (fun r => update_from_dict t.vars.col_names r vd ignoreNone ignoreZero)
                      t.rows }
          | none => .error (.keyError g)
      | _, _ => .error .invalidRequest

/-- Time-column comparison `time_col >= start` on a row value. -/
def valueTsGe (v : Option Value) (s : Nat) : Bool :=
  match v with
  | some (.vTs t) => decide (s ≤ t)
  | _ => false

/-- Time-column comparison `time_col < end` on a row value. -/
def valueTsLt (v : Option Value) (e : Nat) : Bool :=
  match v with
  | some (.vTs t) => decide (t < e)
  | _ => false

/-- `DbObject._s_query` with `selectable = cls` (row query, no
`ignore_le_zero_col`): apply `during`/`after`/`before` on the `time_col`
synonym.  Evaluating `cls.time_col` on a table whose scan designated no
temporal column raises `AttributeError('time_col')` — the synonym attribute
is only created when `time_col_name` is set. -/
def s_query_rows (t : Table) (start? end? : Option Nat) :
    Except PyError (List Row) :=
  match start?, end? with
  | some s, some e =>
      match t.vars.time_col_name with
      | some tc =>
          .ok (t.rows.filter (fun r => valueTsGe (rowGet r tc) s && valueTsLt (rowGet r tc) e))
      | none => .error (.attributeError "time_col")
  | some s, none =>
      match t.vars.time_col_name with
      | some tc => .ok (t.rows.filter (fun r => valueTsGe (rowGet r tc) s))
      | none => .error (.attributeError "time_col")
  | none, some e =>
      match t.vars.time_col_name with
      | some tc => .ok (t.rows.filter (fun r => valueTsLt (rowGet r tc) e))
      | none => .error (.attributeError "time_col")
  | none, none => .ok t.rows

/-! ### Aggregate query helpers (`src/idbutils/db_object.py`)

For the aggregate helpers the selectable is `func(col)`; the relevant state
of a row is its `time_col` timestamp together with the queried column's
value, so rows are modelled as (timestamp, value) pairs.  SQLite's aggregate
semantics (the external engine) are modelled by `applyAgg`: every aggregate
of an empty set is `NULL`; values are rationals (SQLite computes `AVG` in
floating point; none of the verified properties depends on rounding). -/

/-- The SQL aggregate passed as `stat_func` (`func.sum`/`avg`/`min`/`max`). -/
inductive AggFunc where
  | sum
  | avg
  | min
  | max
deriving Repr, DecidableEq

/-- SQLite aggregate semantics: `NULL` on the empty set. -/
def applyAgg (f : AggFunc) (xs : List Rat) : Option Rat :=
  match xs with
  | [] => none
  | x :: rest =>
      match f with
      | .sum => some (x + rest.sum)
      | .avg => some ((x + rest.sum) / ((1 + rest.length : Nat) : Rat))
      | .min => some (rest.foldl Min.min x)
      | .max => some (rest.foldl Max.max x)

/-- A row as seen by an aggregate over a plain column: the table's
`time_col` timestamp and the queried column's value. -/
structure AggRow where
  ts : Nat
  value : Rat
deriving Repr, DecidableEq

/-- A row as seen by an aggregate over a `Time` column: the table's
`time_col` timestamp and the column's value as seconds since midnight
(`_secs_from_time`). -/
structure TimeRow where
  ts : Nat
  secs : Nat
deriving Repr, DecidableEq

/-- The time-window part of `DbObject._s_query`: `during` for
`[start_ts, end_ts)`, `after` for `>= start_ts`, `before` for `< end_ts`,
no filter when both bounds are `None`. -/
def windowFilter (ts : α → Nat) (rows : List α) (start? end? : Option Nat) :
    List α :=
  match start?, end? with
  | some s, some e => rows.filter (fun r => decide (s ≤ ts r) && decide (ts r < e))
  | some s, none => rows.filter (fun r => decide (s ≤ ts r))
  | none, some e => rows.filter (fun r => decide (ts r < e))
  | none, none => rows

/-- The multiset a plain-column aggregate runs over
(`_s_get_col_func_query` → `_s_query`): the time window, then
`col > 0` when `ignore_le_zero` is set. -/
def colValues (rows : List AggRow) (start? end? : Option Nat)
    (ignoreLeZero : Bool) : List Rat :=
  let w := windowFilter AggRow.ts rows start? end?
  (if ignoreLeZero then w.filter (fun r => decide (0 < r.value)) else w).map AggRow.value

/-- `DbObject.s_get_col_avg`. -/
def s_get_col_avg (rows : List AggRow) (start? end? : Option Nat)
    (ignoreLeZero : Bool) : Option Rat :=
  applyAgg .avg (colValues rows start? end? ignoreLeZero)

/-- `DbObject.s_get_col_min`. -/
def s_get_col_min (rows : List AggRow) (start? end? : Option Nat)
    (ignoreLeZero : Bool) : Option Rat :=
  applyAgg .min (colValues rows start? end? ignoreLeZero)

/-- `DbObject.s_get_col_max`. -/
def s_get_col_max (rows : List AggRow) (start? end? : Option Nat)
    (ignoreLeZero : Bool) : Option Rat :=
  applyAgg .max (colValues rows start? end? ignoreLeZero)

/-- `DbObject.s_get_col_sum` (no `ignore_le_zero` parameter). -/
def s_get_col_sum (rows : List AggRow) (start? end? : Option Nat) : Option Rat :=
  applyAgg .sum (colValues rows start? end? false)

/-- Seconds since midnight, as a time of day; `0` is `datetime.time.min`
(midnight, `00:00:00`). -/
abbrev TimeOfDay := Nat

/-- The engine's `func.time(value, 'unixepoch')` rendered back to a
`datetime.time` by `strptime(..., '%H:%M:%S').time()`: whole seconds,
wrapped to a day. -/
def ratToTimeOfDay (r : Rat) : TimeOfDay := r.floor.toNat % 86400

/-- The multiset a time-of-day aggregate runs over: `_s_query` is invoked
with `ignore_le_zero_col = cls._secs_from_time(col)`, so the window filter
is always followed by `seconds-since-midnight > 0`. -/
def timeSecs (rows : List TimeRow) (start? end? : Option Nat) : List Rat :=
  ((windowFilter TimeRow.ts rows start? end?).filter
      (fun r => decide (0 < r.secs))).map (fun r => (r.secs : Rat))

/-- `DbObject._s_get_time_col_func`: aggregate the seconds-since-midnight
values, convert the scalar back to a time of day, and return
`datetime.time.min` (midnight) — not `None` — when the scalar is `NULL`.
The codomain is `Option TimeOfDay` (the Python value domain); the code
itself never returns `none`. -/
def s_get_time_col_func (rows : List TimeRow) (statFunc : AggFunc)
    (start? end? : Option Nat) : Option TimeOfDay :=
  match applyAgg statFunc (timeSecs rows start? end?) with
  | some r => some (ratToTimeOfDay r)
  | none => some 0

/-- `DbObject.s_get_time_col_avg`. -/
def s_get_time_col_avg (rows : List TimeRow) (start? end? : Option Nat) :
    Option TimeOfDay :=
  s_get_time_col_func rows .avg start? end?

/-- `DbObject.s_get_time_col_min`. -/
def s_get_time_col_min (rows : List TimeRow) (start? end? : Option Nat) :
    Option TimeOfDay :=
  s_get_time_col_func rows .min start? end?

/-- `DbObject.s_get_time_col_max`. -/
def s_get_time_col_max (rows : List TimeRow) (start? end? : Option Nat) :
    Option TimeOfDay :=
  s_get_time_col_func rows .max start? end?

/-- `DbObject.s_get_time_col_sum`. -/
def s_get_time_col_sum (rows : List TimeRow) (start? end? : Option Nat) :
    Option TimeOfDay :=
  s_get_time_col_func rows .sum start? end?

/-! ### Per-day rollups (`_s_get_col_func_of_max_per_day_for_value` and the
`*_of_max_per_day` family) -/

/-- The engine's `strftime("%j", time_col)` grouping key: the calendar day
of the timestamp (modelled on a linear epoch; the verified properties do not
depend on the calendar's shape). -/
def dayOf (t : Nat) : Nat := t / 86400

/-- First-occurrence deduplication of the grouping keys (the engine's
`GROUP BY` produces one group per distinct key). -/
def dedupFirst : List Nat → List Nat
  | [] => []
  | d :: ds => d :: (dedupFirst ds).filter (fun x => !(x == d))

/-- The inner grouped subquery: rows in `[start_ts, end_ts)`, grouped by
day, `max(col)` per group (the `maxes` column of the subquery). -/
def perDayMaxes (rows : List AggRow) (start end_ : Nat) : List Rat :=
  let inWin := rows.filter (fun r => decide (start ≤ r.ts) && decide (r.ts < end_))
  (dedupFirst (inWin.map (fun r => dayOf r.ts))).filterMap
    (fun d => applyAgg .max ((inWin.filter (fun r => decide (dayOf r.ts = d))).map AggRow.value))

/-- `DbObject._s_get_col_func_of_max_per_day_for_value`: apply `stat_func`
over the per-day maxima.  The source builds
`max_daily_query.filter(match_col == match_value)` but discards the result
(line 589 of db_object.py), so the match arguments have no effect on the
outcome; the model keeps the parameter to mirror the signature. -/
def s_get_col_func_of_max_per_day_for_value (rows : List AggRow)
    (statFunc : AggFunc) (start end_ : Nat) (matchValue? : Option Rat) :
    Option Rat :=
  applyAgg statFunc (perDayMaxes rows start end_)

/-- `DbObject._s_get_col_func_of_max_per_day` / `_get_col_func_of_max_per_day`:
forwards `func.sum` as the outer aggregate regardless of the `stat_func`
argument it was given (db_object.py lines 613-618). -/
def s_get_col_func_of_max_per_day (rows : List AggRow) (statFunc : AggFunc)
    (start end_ : Nat) : Option Rat :=
  s_get_col_func_of_max_per_day_for_value rows .sum start end_ none

/-- `DbObject.get_col_sum_of_max_per_day`. -/
def get_col_sum_of_max_per_day (rows : List AggRow) (start end_ : Nat) :
    Option Rat :=
  s_get_col_func_of_max_per_day rows .sum start end_

/-- `DbObject.get_col_avg_of_max_per_day`. -/
def get_col_avg_of_max_per_day (rows : List AggRow) (start end_ : Nat) :
    Option Rat :=
  s_get_col_func_of_max_per_day rows .avg start end_

/-- `DbObject.get_col_min_of_max_per_day`. -/
def get_col_min_of_max_per_day (rows : List AggRow) (start end_ : Nat) :
    Option Rat :=
  s_get_col_func_of_max_per_day rows .min start end_

/-- `DbObject.get_col_max_of_max_per_day`. -/
def get_col_max_of_max_per_day (rows : List AggRow) (start end_ : Nat) :
    Option Rat :=
  s_get_col_func_of_max_per_day rows .max start end_

/-! ### Claim theorems -/

/-- C7: `set_newer(key, value, timestamp)` writes the new value only when the
key is absent or the supplied timestamp is strictly greater than the stored
timestamp; when the supplied timestamp is equal to or earlier than the
stored one, the call is a no-op and both the stored value and stored
timestamp are unchanged. -/
theorem c7_set_newer_strictly_newer (store : KVStore) (key value : String) (ts : Int) :
    (kvGet store key = none →
        s_set_newer store key value ts = kvInsertOrUpdate store ts key value ∧
        kvGet (s_set_newer store key value ts) key = some ⟨ts, key, some value⟩) ∧
    (∀ item, kvGet store key = some item →
        (item.timestamp < ts →
            kvGet (s_set_newer store key value ts) key = some ⟨ts, key, some value⟩) ∧
        (ts ≤ item.timestamp → s_set_newer store key value ts = store)) := by
  constructor
  · intro h
    have h1 : s_set_newer store key value ts = kvInsertOrUpdate store ts key value := by
      unfold s_set_newer; rw [h]
    have h2 : kvInsertOrUpdate store ts key value = store ++ [⟨ts, key, some value⟩] := by
      unfold kvInsertOrUpdate; rw [h]
    refine ⟨h1, ?_⟩
    rw [h1, h2]
    unfold kvGet at h ⊢
    rw [find?_append_none _ _ _ h]
    simp [List.find?]
  · intro item hitem
    constructor
    · intro hlt
      have h1 : s_set_newer store key value ts = kvInsertOrUpdate store ts key value := by
        unfold s_set_newer; simp only [hitem]; rw [if_pos hlt]
      have h2 : kvInsertOrUpdate store ts key value
          = replaceFirstP (fun r => decide (r.key = key))
              (fun _ => ⟨ts, key, some value⟩) store := by
        unfold kvInsertOrUpdate; rw [hitem]
      rw [h1, h2]
      unfold kvGet at hitem ⊢
      rw [find?_replaceFirstP _ _ _ (fun a _ => by simp), hitem]
      rfl
    · intro hge
      unfold s_set_newer
      simp only [hitem]
      rw [if_neg (not_lt.mpr hge)]

/-- Witness for C7 at concrete inputs: an equal timestamp is a no-op, and an
absent key is written. -/
theorem c7_witness :
    s_set_newer [⟨5, "k", some "old"⟩] "k" "new" 5 = [⟨5, "k", some "old"⟩] ∧
    kvGet (s_set_newer [] "k" "v" 3) "k" = some ⟨3, "k", some "v"⟩ :=
  ⟨((c7_set_newer_strictly_newer [⟨5, "k", some "old"⟩] "k" "new" 5).2
      ⟨5, "k", some "old"⟩ (by decide)).2 (by decide),
   ((c7_set_newer_strictly_newer [] "k" "v" 3).1 (by decide)).2⟩

/-- C8: the Version Ledger reads via `get_type` return the caller-supplied
default when the key is absent, and return the caller-supplied default when
the stored string cannot be converted (`typeFunc` fails; the source logs and
falls through to `return default`).  `get_type` is a total function: no
exception escapes to the caller. -/
theorem c8_get_type_defaults {α : Type} (store : KVStore)
    (typeFunc : String → Option α) (key : String) (default : Option α) :
    (kvGet store key = none → get_type store typeFunc key default = default) ∧
    (∀ rec s, kvGet store key = some rec → rec.value = some s → typeFunc s = none →
        get_type store typeFunc key default = default) := by
  constructor
  · intro h
    unfold get_type
    rw [h]
  · intro rec s h1 h2 h3
    unfold get_type
    simp only [h1, h2, h3]

/-- Witness for C8: absent key, and a stored value `int(...)` cannot parse,
both return the default. -/
theorem c8_witness :
    get_type [] pyInt? "k" (some 7) = some 7 ∧
    get_type [⟨0, "k", some "abc"⟩] pyInt? "k" (some 7) = some 7 :=
  ⟨(c8_get_type_defaults [] pyInt? "k" (some 7)).1 (by decide),
   (c8_get_type_defaults [⟨0, "k", some "abc"⟩] pyInt? "k" (some 7)).2
     ⟨0, "k", some "abc"⟩ "abc" (by decide) rfl (by decide)⟩

/-- C1: on a fresh database binding stores the declared version and
succeeds; rebinding with an equal stored version succeeds; a differing
stored version raises an error carrying the table name and both version
numbers, and the bootstrap write (`set_if_unset`) leaves the stored version
unchanged. -/
theorem c1_table_version_check (dbName : String) (store : KVStore)
    (t : TableMeta) (ts : Int) :
    (kvGet store (t.tablename ++ ".version") = none →
        table_version_check dbName store t ts =
          .ok (store ++ [⟨ts, t.tablename ++ ".version", some (pyStr t.table_version)⟩]) ∧
        get_int (store ++ [⟨ts, t.tablename ++ ".version", some (pyStr t.table_version)⟩])
          (t.tablename ++ ".version") none = some t.table_version) ∧
    (∀ rec s, kvGet store (t.tablename ++ ".version") = some rec →
        rec.value = some s → pyInt? s = some t.table_version →
        table_version_check dbName store t ts = .ok store) ∧
    (∀ rec s w, kvGet store (t.tablename ++ ".version") = some rec →
        rec.value = some s → pyInt? s = some w → w ≠ t.table_version →
        table_version_check dbName store t ts =
          .error ⟨dbName, t.tablename, some w, t.table_version⟩ ∧
        set_if_unset store (t.tablename ++ ".version") (pyStr t.table_version) ts = store) := by
  refine ⟨?_, ?_, ?_⟩
  · intro h
    have hset : set_if_unset store (t.tablename ++ ".version") (pyStr t.table_version) ts
        = store ++ [⟨ts, t.tablename ++ ".version", some (pyStr t.table_version)⟩] := by
      unfold set_if_unset; rw [h]
    have hget : kvGet
        (store ++ [⟨ts, t.tablename ++ ".version", some (pyStr t.table_version)⟩])
        (t.tablename ++ ".version")
        = some ⟨ts, t.tablename ++ ".version", some (pyStr t.table_version)⟩ := by
      unfold kvGet at h ⊢
      rw [find?_append_none _ _ _ h]
      simp [List.find?]
    have hint : get_int
        (store ++ [⟨ts, t.tablename ++ ".version", some (pyStr t.table_version)⟩])
        (t.tablename ++ ".version") none = some t.table_version := by
      unfold get_int get_type
      rw [hget]
      simp [pyInt?_pyStr]
    refine ⟨?_, hint⟩
    unfold table_version_check version_check_key
    simp only [hset, hint]
    simp
  · intro rec s h1 h2 h3
    have hset : set_if_unset store (t.tablename ++ ".version") (pyStr t.table_version) ts
        = store := by
      unfold set_if_unset; rw [h1]
    have hint : get_int store (t.tablename ++ ".version") none = some t.table_version := by
      unfold get_int get_type
      simp only [h1, h2, h3]
    unfold table_version_check version_check_key
    simp only [hset, hint]
    simp
  · intro rec s w h1 h2 h3 hne
    have hset : set_if_unset store (t.tablename ++ ".version") (pyStr t.table_version) ts
        = store := by
      unfold set_if_unset; rw [h1]
    have hint : get_int store (t.tablename ++ ".version") none = some w := by
      unfold get_int get_type
      simp only [h1, h2, h3]
    refine ⟨?_, hset⟩
    unfold table_version_check version_check_key
    simp only [hset, hint]
    simp [hne]

/-- Witness for C1 at concrete inputs: fresh database, matching rebind, and
mismatching rebind. -/
theorem c1_witness :
    table_version_check "db" [] ⟨"tbl", 2, none, []⟩ 7 =
      .ok [⟨7, "tbl" ++ ".version", some (pyStr 2)⟩] ∧
    table_version_check "db" [⟨0, "tbl.version", some "2"⟩] ⟨"tbl", 2, none, []⟩ 7 =
      .ok [⟨0, "tbl.version", some "2"⟩] ∧
    table_version_check "db" [⟨0, "tbl.version", some "3"⟩] ⟨"tbl", 2, none, []⟩ 7 =
      .error ⟨"db", "tbl", some 3, 2⟩ :=
  ⟨((c1_table_version_check "db" [] ⟨"tbl", 2, none, []⟩ 7).1 (by decide)).1,
   (c1_table_version_check "db" [⟨0, "tbl.version", some "2"⟩] ⟨"tbl", 2, none, []⟩ 7).2.1
     ⟨0, "tbl.version", some "2"⟩ "2" (by decide) rfl (by decide),
   ((c1_table_version_check "db" [⟨0, "tbl.version", some "3"⟩] ⟨"tbl", 2, none, []⟩ 7).2.2
     ⟨0, "tbl.version", some "3"⟩ "3" 3 (by decide) rfl (by decide) (by decide)).1⟩

/-- C2: when the stored view version differs from the declared one (and the
table version check passed), `init_table` does not raise: it completes
normally, dropping the table's default view through the engine's
`DROP VIEW IF EXISTS`. -/
theorem c2_view_mismatch_drops_view (dbName : String) (st : DbState)
    (t : TableMeta) (ts : Int) (vv w : Int) (store1 : KVStore) (rec : KVRecord)
    (s : String)
    (hvv : t.view_version = some vv)
    (htab : table_version_check dbName st.store t ts = .ok store1)
    (hrec : kvGet (update_table_units store1 t ts) (t.tablename ++ ".view_version")
      = some rec)
    (hs : rec.value = some s) (hw : pyInt? s = some w) (hne : w ≠ vv) :
    ∃ store', init_table dbName st t ts =
      .ok ⟨store', delete_view st.views (get_default_view_name t.tablename)⟩ := by
  refine ⟨update_table_units store1 t ts, ?_⟩
  have hset : set_if_unset (update_table_units store1 t ts)
      (t.tablename ++ ".view_version") (pyStr vv) ts
      = update_table_units store1 t ts := by
    unfold set_if_unset; rw [hrec]
  have hint : get_int (update_table_units store1 t ts)
      (t.tablename ++ ".view_version") none = some w := by
    unfold get_int get_type
    simp only [hrec, hs, hw]
  have hvvc : view_version_check (update_table_units store1 t ts) t ts
      = (update_table_units store1 t ts, false) := by
    unfold view_version_check version_check_key
    rw [hvv]
    simp only [hset, hint]
    simp [hne]
  unfold init_table
  rw [htab]
  simp only [hvvc]
  simp

/-- Witness for C2: stored view version 1 against declared view version 2
drops `tbl_view` without raising. -/
theorem c2_witness :
    ∃ store', init_table "db"
        ⟨[⟨0, "tbl.version", some "1"⟩, ⟨0, "tbl.view_version", some "1"⟩],
         ["tbl_view", "other"]⟩
        ⟨"tbl", 1, some 2, []⟩ 9 =
      .ok ⟨store', delete_view ["tbl_view", "other"] (get_default_view_name "tbl")⟩ :=
  c2_view_mismatch_drops_view "db"
    ⟨[⟨0, "tbl.version", some "1"⟩, ⟨0, "tbl.view_version", some "1"⟩],
     ["tbl_view", "other"]⟩
    ⟨"tbl", 1, some 2, []⟩ 9 2 1
    [⟨0, "tbl.version", some "1"⟩, ⟨0, "tbl.view_version", some "1"⟩]
    ⟨0, "tbl.view_version", some "1"⟩ "1"
    rfl rfl (by decide) rfl (by decide) (by decide)

/-- C3 (code bug): for the composite-primary-key table of the test suite
(`test_2pk`: `activity_id` String + `record` Integer, both primary key),
`insert_or_update` of `{'activity_id': 0, 'record': 0}` does not perform a
keyed upsert: `s_get_from_dict` passes the scalar
`values_dict[cls.get_col_name]` (the last primary-key column only) to
`Query.get`, which raises `InvalidRequestError` for a composite primary
key. -/
theorem c3_composite_pk_insert_or_update_raises :
    s_insert_or_update
        ⟨setup_table_vars
            [⟨"activity_id", ColType.SString, true⟩, ⟨"record", ColType.SInteger, true⟩],
         []⟩
        [("activity_id", Value.vInt 0), ("record", Value.vInt 0)] true false
      = .error .invalidRequest := by
  rfl

/-- C4 (code bug): `get_col_avg_of_max_per_day`, `get_col_min_of_max_per_day`
and `get_col_max_of_max_per_day` all return the SUM of the per-day maxima —
`_get_col_func_of_max_per_day` forwards `func.sum` instead of its
`stat_func` argument.  On two days with maxima 1 and 3 all three helpers
return 4, while the claimed outer aggregates would give 2, 1 and 3. -/
theorem c4_of_max_per_day_outer_is_sum :
    get_col_avg_of_max_per_day [⟨0, 1⟩, ⟨86400, 3⟩] 0 172800 = some 4 ∧
    get_col_min_of_max_per_day [⟨0, 1⟩, ⟨86400, 3⟩] 0 172800 = some 4 ∧
    get_col_max_of_max_per_day [⟨0, 1⟩, ⟨86400, 3⟩] 0 172800 = some 4 ∧
    applyAgg .avg (perDayMaxes [⟨0, 1⟩, ⟨86400, 3⟩] 0 172800) = some 2 ∧
    applyAgg .min (perDayMaxes [⟨0, 1⟩, ⟨86400, 3⟩] 0 172800) = some 1 ∧
    applyAgg .max (perDayMaxes [⟨0, 1⟩, ⟨86400, 3⟩] 0 172800) = some 3 := by
  refine ⟨?_, ?_, ?_, ?_, ?_, ?_⟩ <;>
    norm_num [get_col_avg_of_max_per_day, get_col_min_of_max_per_day,
      get_col_max_of_max_per_day, s_get_col_func_of_max_per_day,
      s_get_col_func_of_max_per_day_for_value, perDayMaxes, dayOf, dedupFirst,
      applyAgg, List.filterMap_cons, List.filterMap_nil]

/-- Modelled from the spec: "the binder scans columns for the first temporal
type found outside the primary key, then within the primary key" — the time
column the spec says the binder designates. -/
def spec_time_col_name (cols : List ColDef) : Option String :=
  match cols.find? (fun c => !c.primary_key && isTemporal c.type) with
  | some c => some c.name
  | none => (cols.find? (fun c => c.primary_key && isTemporal c.type)).map ColDef.name

/-- C9 counterexample: on a table with a temporal primary-key column
`stamp` declared before a temporal non-key column `other_time`, the code
designates `stamp` while the claim's scan order would designate
`other_time`. -/
theorem c9_counterexample :
    (setup_table_vars
        [⟨"stamp", ColType.SDateTime, true⟩,
         ⟨"other_time", ColType.SDateTime, false⟩]).time_col_name = some "stamp" ∧
    spec_time_col_name
        [⟨"stamp", ColType.SDateTime, true⟩,
         ⟨"other_time", ColType.SDateTime, false⟩] = some "other_time" ∧
    some "stamp" ≠ some "other_time" := by
  refine ⟨rfl, rfl, by decide⟩

/-- C9 (amended): with no explicit time column, the binder designates the
LAST temporal column inside the primary key; only when the primary key has
no temporal column does it designate the first temporal column in
declaration order. -/
theorem c9_time_col_priority (cols : List ColDef) :
    (setup_table_vars cols).time_col_name =
      match cols.reverse.find? (fun c => c.primary_key && isTemporal c.type) with
      | some c => some c.name
      | none => (cols.find? (fun c => isTemporal c.type)).map ColDef.name :=
  setup_time_col cols

/-- C5 counterexample: on a table with no temporal column, a time-range
query raises `AttributeError('time_col')` — Python's missing-attribute
failure — not a dedicated "no time column" error. -/
theorem c5_counterexample :
    s_query_rows
        ⟨setup_table_vars
            [⟨"activity_id", ColType.SString, true⟩, ⟨"record", ColType.SInteger, false⟩],
         []⟩ (some 0) (some 10)
      = .error (.attributeError "time_col") ∧
    (Except.error (PyError.attributeError "time_col") : Except PyError (List Row))
      ≠ .error .noTimeColumnError := by
  refine ⟨rfl, by simp⟩

/-- C5 (amended): a table whose columns include no temporal type gets
`time_col_name = none`, and every time-bounded query fails fast — at query
construction — with `AttributeError('time_col')`. -/
theorem c5_no_time_column_fails_fast (cols : List ColDef) (rows : List Row)
    (s e : Nat) (h : ∀ c ∈ cols, isTemporal c.type = false) :
    s_query_rows ⟨setup_table_vars cols, rows⟩ (some s) (some e)
        = .error (.attributeError "time_col") ∧
    s_query_rows ⟨setup_table_vars cols, rows⟩ (some s) none
        = .error (.attributeError "time_col") ∧
    s_query_rows ⟨setup_table_vars cols, rows⟩ none (some e)
        = .error (.attributeError "time_col") := by
  have h1 : cols.reverse.find? (fun c => c.primary_key && isTemporal c.type) = none := by
    rw [List.find?_eq_none]
    intro c hc
    simp [h c (List.mem_reverse.mp hc)]
  have h2 : cols.find? (fun c => isTemporal c.type) = none := by
    rw [List.find?_eq_none]
    intro c hc
    simp [h c hc]
  have htc : (setup_table_vars cols).time_col_name = none := by
    rw [setup_time_col, h1, h2]
    rfl
  refine ⟨?_, ?_, ?_⟩ <;> simp [s_query_rows, htc]

/-- Witness for C5 (amended) on the no-temporal-column test table. -/
theorem c5_witness :
    s_query_rows
        ⟨setup_table_vars
            [⟨"activity_id", ColType.SString, true⟩, ⟨"record", ColType.SInteger, false⟩],
         []⟩ (some 0) (some 10)
      = .error (.attributeError "time_col") :=
  (c5_no_time_column_fails_fast
      [⟨"activity_id", ColType.SString, true⟩, ⟨"record", ColType.SInteger, false⟩]
      [] 0 10 (by decide)).1

/-- C6 counterexample: on an empty filtered row set `get_time_col_avg`
returns `datetime.time.min` (midnight), a sentinel value — not the engine's
null/None. -/
theorem c6_counterexample :
    s_get_time_col_avg ([] : List TimeRow) none none = some 0 ∧
    (some 0 : Option TimeOfDay) ≠ none := by
  refine ⟨rfl, by simp⟩

/-- C6 (amended): over an empty filtered row set the plain column aggregates
(avg/min/max/sum) return the engine's null/None, while the time-of-day
variants replace the engine's null with `datetime.time.min` (midnight). -/
theorem c6_empty_set_aggregates (rows : List AggRow) (trows : List TimeRow)
    (s? e? : Option Nat) (ign : Bool)
    (hA : windowFilter AggRow.ts rows s? e? = [])
    (hT : windowFilter TimeRow.ts trows s? e? = []) :
    s_get_col_avg rows s? e? ign = none ∧
    s_get_col_min rows s? e? ign = none ∧
    s_get_col_max rows s? e? ign = none ∧
    s_get_col_sum rows s? e? = none ∧
    s_get_time_col_avg trows s? e? = some 0 ∧
    s_get_time_col_min trows s? e? = some 0 ∧
    s_get_time_col_max trows s? e? = some 0 ∧
    s_get_time_col_sum trows s? e? = some 0 := by
  have hcv : ∀ b, colValues rows s? e? b = [] := by
    intro b
    cases b <;> simp [colValues, hA]
  have hts : timeSecs trows s? e? = [] := by
    simp [timeSecs, hT]
  refine ⟨?_, ?_, ?_, ?_, ?_, ?_, ?_, ?_⟩ <;>
    simp [s_get_col_avg, s_get_col_min, s_get_col_max, s_get_col_sum,
      s_get_time_col_avg, s_get_time_col_min, s_get_time_col_max,
      s_get_time_col_sum, s_get_time_col_func, hcv, hts, applyAgg]

/-- Witness for C6 (amended) on empty tables. -/
theorem c6_witness :
    s_get_col_avg [] none none false = none ∧
    s_get_time_col_avg [] none none = some 0 := by
  have h := c6_empty_set_aggregates [] [] none none false rfl rfl
  exact ⟨h.1, h.2.2.2.2.1⟩

theorem windowFilter_filter (ts : α → Nat) (q : α → Bool) (rows : List α)
    (s? e? : Option Nat) :
    windowFilter ts (rows.filter q) s? e? = (windowFilter ts rows s? e?).filter q := by
  rcases s? with _ | s <;> rcases e? with _ | e
  · rfl
  · exact filter_swap _ _ _
  · exact filter_swap _ _ _
  · exact filter_swap _ _ _

theorem mem_windowFilter (ts : α → Nat) (rows : List α) (s? e? : Option Nat)
    (a : α) (ha : a ∈ windowFilter ts rows s? e?) : a ∈ rows := by
  rcases s? with _ | s <;> rcases e? with _ | e
  · exact ha
  · exact (List.mem_filter.mp ha).1
  · exact (List.mem_filter.mp ha).1
  · exact (List.mem_filter.mp ha).1

theorem timeSecs_filter_ne_zero (trows : List TimeRow) (s? e? : Option Nat) :
    timeSecs (trows.filter (fun r => !(r.secs == 0))) s? e? = timeSecs trows s? e? := by
  unfold timeSecs
  rw [windowFilter_filter, filter_swap]
  have hself : ∀ a ∈ (windowFilter TimeRow.ts trows s? e?).filter
      (fun r => decide (0 < r.secs)), (!(a.secs == 0)) = true := by
    intro a ha
    have h2 := (List.mem_filter.mp ha).2
    simp at h2 ⊢
    omega
  rw [List.filter_eq_self.mpr hself]

/-- C10: the time-of-day aggregation helpers unconditionally filter on
seconds-since-midnight being strictly positive, so rows whose value is
exactly midnight are excluded; a row set of only midnight values aggregates
as the empty set does (yielding `datetime.time.min`). -/
theorem c10_midnight_rows_excluded (trows : List TimeRow) (f : AggFunc)
    (s? e? : Option Nat) :
    s_get_time_col_func trows f s? e? =
      s_get_time_col_func (trows.filter (fun r => !(r.secs == 0))) f s? e? ∧
    ((∀ r ∈ trows, r.secs = 0) → s_get_time_col_func trows f s? e? = some 0) := by
  constructor
  · unfold s_get_time_col_func
    rw [timeSecs_filter_ne_zero]
  · intro h
    have hempty : timeSecs trows s? e? = [] := by
      unfold timeSecs
      have hnil : (windowFilter TimeRow.ts trows s? e?).filter
          (fun r => decide (0 < r.secs)) = [] := by
        rw [List.filter_eq_nil_iff]
        intro a ha
        have h0 := h a (mem_windowFilter _ _ _ _ _ ha)
        simp [h0]
      rw [hnil]
      rfl
    unfold s_get_time_col_func
    rw [hempty]
    rfl

/-- Witness for C10: a single midnight row aggregates to `time.min`. -/
theorem c10_witness :
    s_get_time_col_func [⟨0, 0⟩] AggFunc.avg none none = some 0 :=
  (c10_midnight_rows_excluded [⟨0, 0⟩] .avg none none).2 (by decide)
